import Mathlib

/-!
Verification of the Coinbase exchange adapter
(`Trading/Exchange/coinbase/coinbase_exchange.py`).

The development shallowly embeds the adapter's pure logic:

* the instant-retry wrapper `_coinbase_retrier` (a decorator in the source)
  becomes a function from an attempt-indexed operation to a result together
  with the number of invocations of the wrapped operation;
* the order/trade repair passes of `CoinbaseCCXTAdapter` (`fix_order`,
  `fix_trades`) become functions on records whose optional numeric fields
  use `Option ℚ` (with Python truthiness made explicit), and for trades a
  three-valued field type distinguishing a missing dictionary key (Python
  `KeyError`) from a key holding `None`;
* the OHLCV pagination parameter computation `_get_ohlcv_params` and the
  market-open check `is_market_open_for_order_type` become pure functions
  of their inputs (the transport clock and the market-status record are
  parameters).

External collaborators (the ccxt transport, the generic `RestExchange`
super-class methods, logging) are abstracted as parameters: a transport is a
function from the attempt index to an `Outcome`, and logging is dropped
(the source only logs; logging never affects control flow).
-/

/-! ## Python-style helpers -/

/-- Boolean test that one character list starts with another. -/
def startsWithChars : List Char → List Char → Bool
  | [], _ => true
  | _ :: _, [] => false
  | n :: ns, h :: hs => n == h && startsWithChars ns hs

/-- Boolean substring occurrence on character lists. -/
def occursInChars (needle : List Char) : List Char → Bool
  | [] => needle.isEmpty
  | h :: hs => startsWithChars needle (h :: hs) || occursInChars needle hs

/-- Model of the Python `needle in hay` substring test on strings. -/
def strOccurs (needle hay : String) : Bool := occursInChars needle.data hay.data

/-- Python truthiness of an optional number (`None` and `0` are falsy). -/
def pyTruthyOptQ : Option ℚ → Bool
  | none => false
  | some x => decide (x ≠ 0)

/-- Python truthiness of an optional natural number (`None` and `0` are falsy). -/
def pyTruthyOptNat : Option Nat → Bool
  | none => false
  | some n => decide (n ≠ 0)

/-- Substring embedding: `piece` occurs verbatim inside `whole`. -/
def embedsIn (piece whole : String) : Prop :=
  ∃ s t : String, whole = s ++ piece ++ t

/-! ## Error model

The source catches `octobot_trading.errors.FailedRequest`,
`octobot_trading.errors.RateLimitExceeded` and `ccxt.BaseError`; every other
exception kind is grouped under `otherError` (not caught by the retrier).
`className` models Python's `err.__class__.__name__` and `text` models
`str(err)`. -/

inductive ErrKind where
  | failedRequest
  | rateLimitExceeded
  | ccxtBaseError
  | otherError
  deriving DecidableEq

structure PyError where
  kind : ErrKind
  className : String
  text : String
  deriving DecidableEq

/-- Result of one invocation of a wrapped asynchronous operation. -/
inductive Outcome (α : Type) where
  | ok (val : α)
  | err (e : PyError)
  deriving DecidableEq

/-- Observable result of a retried call: normal return, an error propagated
as-is (Python `raise` re-raising the original), or a new error raised with an
explicit cause (Python `raise e from cause`). -/
inductive RetrierResult (α : Type) where
  | ok (val : α)
  | raised (e : PyError)
  | raisedFrom (e : PyError) (cause : PyError)
  deriving DecidableEq

/-! ## Retry policy (`_coinbase_retrier`) -/

/-- `Coinbase.FAKE_RATE_LIMIT_ERROR_INSTANT_RETRY_COUNT` from the source. -/
def FAKE_RATE_LIMIT_ERROR_INSTANT_RETRY_COUNT : Nat := 5

/-- `Coinbase.INSTANT_RETRY_ERROR_CODE` from the source. -/
def INSTANT_RETRY_ERROR_CODE : String := "429"

/-- Membership in the `except (FailedRequest, RateLimitExceeded, ccxt.BaseError)`
tuple of `coinbase_retrier_wrapper`. -/
def isRetryableKind : ErrKind → Bool
  | .failedRequest => true
  | .rateLimitExceeded => true
  | .ccxtBaseError => true
  | .otherError => false

/-- Message of the final `FailedRequest` raised after exhausting all attempts,
mirroring the f-string of `coinbase_retrier_wrapper` (`fName` is `f.__name__`,
`argsText` renders `args=... kwargs=...`). -/
def coinbaseWrappedMessage (fName argsText : String) (lastError : PyError) : String :=
  "Failed Coinbase request after " ++ toString FAKE_RATE_LIMIT_ERROR_INSTANT_RETRY_COUNT ++
  " retries on " ++ fName ++ "(" ++ argsText ++ ") due to " ++ INSTANT_RETRY_ERROR_CODE ++
  " error code. Last error: " ++ lastError.text ++ " (" ++ lastError.className ++ ")"

/-- The `RuntimeError("Unknown Coinbase error")` fallback of line 53 of the
source (only reachable when the retry count is zero). -/
def unknownCoinbaseError : PyError :=
  { kind := .otherError, className := "RuntimeError", text := "Unknown Coinbase error" }

/-- The final `octobot_trading.errors.FailedRequest` raised when all attempts
are exhausted. -/
def coinbaseWrappedError (fName argsText : String) (lastError : PyError) : PyError :=
  { kind := .failedRequest, className := "FailedRequest",
    text := coinbaseWrappedMessage fName argsText lastError }

/-- The `for i in range(0, FAKE_RATE_LIMIT_ERROR_INSTANT_RETRY_COUNT)` loop of
`coinbase_retrier_wrapper`. `fuel` is the number of remaining iterations, `i`
the current attempt index, `lastError` the `last_error` local, and `calls`
counts invocations of the wrapped operation `f`. A caught error whose text
contains `INSTANT_RETRY_ERROR_CODE` is only logged and the loop continues;
otherwise the error is (re-)raised. After the loop a fresh `FailedRequest`
is raised `from last_error`. -/
def coinbaseRetrierLoop {α : Type} (f : Nat → Outcome α) (fName argsText : String) :
    Nat → Nat → Option PyError → Nat → RetrierResult α × Nat
  | 0, _, lastError, calls =>
    let le := lastError.getD unknownCoinbaseError
    (.raisedFrom (coinbaseWrappedError fName argsText le) le, calls)
  | fuel + 1, i, _, calls =>
    match f i with
    | .ok v => (.ok v, calls + 1)
    | .err e =>
      if isRetryableKind e.kind && strOccurs INSTANT_RETRY_ERROR_CODE e.text then
        coinbaseRetrierLoop f fName argsText fuel (i + 1) (some e) (calls + 1)
      else (.raised e, calls + 1)

/-- Model of `_coinbase_retrier` applied to an operation `f`: runs the retry
loop and also reports how many times `f` was invoked. -/
def _coinbase_retrier {α : Type} (f : Nat → Outcome α) (fName argsText : String) :
    RetrierResult α × Nat :=
  coinbaseRetrierLoop f fName argsText FAKE_RATE_LIMIT_ERROR_INSTANT_RETRY_COUNT 0 none 0

/-! ## Engine-facing operations of `Coinbase` (facade)

Each decorated method's body is its call into the `RestExchange` super-class,
abstracted as a transport function from the attempt index to an outcome. -/

/-- Modelled from the spec: the external engine constant
`trading_constants.DEFAULT_ACCOUNT_ID`, the "locally generated deterministic
placeholder identifier" returned when fetching the account id fails. -/
def DEFAULT_ACCOUNT_ID : String := "default"

/-- Model of `Coinbase.get_account_id`: calls `v2PrivateGetUser` (the
transport) once; on `ccxt.BaseError` it logs and returns
`DEFAULT_ACCOUNT_ID`; any other error propagates. It is not decorated with
`_coinbase_retrier`. The second component counts transport invocations. -/
def get_account_id (transport : Nat → Outcome String) : Outcome String × Nat :=
  match transport 0 with
  | .ok v => (.ok v, 1)
  | .err e => if e.kind = .ccxtBaseError then (.ok DEFAULT_ACCOUNT_ID, 1) else (.err e, 1)

/-- `Coinbase.MAX_PAGINATION_LIMIT` from the source. -/
def MAX_PAGINATION_LIMIT : Nat := 300

/-- The external constant `commons_constants.MSECONDS_TO_MINUTE`. -/
def MSECONDS_TO_MINUTE : Nat := 60000

/-- The OHLCV request keyword arguments touched by `_get_ohlcv_params`:
`none` models a key absent from the `kwargs` dict. -/
structure OhlcvKwargs where
  since : Option Int
  limit : Option Nat
  deriving DecidableEq

/-- Model of `Coinbase._get_ohlcv_params`. `time_frame_minutes` stands for
the external lookup `commons_enums.TimeFramesMinutes[time_frame]`, and `now`
for `self.connector.client.milliseconds()`. The local `time_frame_sec`
keeps its (misleading) source name: it is a number of milliseconds. -/
def _get_ohlcv_params (time_frame_minutes : Nat) (input_limit : Option Nat)
    (kwargs : OhlcvKwargs) (now : Int) : OhlcvKwargs :=
  let limit : Nat :=
    if !pyTruthyOptNat input_limit || decide (MAX_PAGINATION_LIMIT < input_limit.getD 0) then
      if pyTruthyOptNat input_limit then min MAX_PAGINATION_LIMIT (input_limit.getD 0)
      else MAX_PAGINATION_LIMIT
    else input_limit.getD 0
  match kwargs.since with
  | none =>
    let time_frame_sec := time_frame_minutes * MSECONDS_TO_MINUTE
    { kwargs with since := some (now - (time_frame_sec * limit : Nat)),
                  limit := some limit }
  | some _ => kwargs

/-- Model of `Coinbase.get_symbol_prices`: the decorated body computes the
OHLCV params (with a fresh clock reading per attempt) and calls the
super-class fetch, abstracted as `transport`. -/
def get_symbol_prices {α : Type} (transport : OhlcvKwargs → Nat → Outcome α)
    (time_frame_minutes : Nat) (limit : Option Nat) (kwargs : OhlcvKwargs)
    (now : Nat → Int) (argsText : String) : RetrierResult α × Nat :=
  _coinbase_retrier
    (fun i => transport (_get_ohlcv_params time_frame_minutes limit kwargs (now i)) i)
    "get_symbol_prices" argsText

/-- Model of `Coinbase.get_recent_trades` (decorated super-class call). -/
def get_recent_trades {α : Type} (transport : Nat → Outcome α) (argsText : String) :
    RetrierResult α × Nat :=
  _coinbase_retrier transport "get_recent_trades" argsText

/-- Model of `Coinbase.get_price_ticker` (decorated super-class call). -/
def get_price_ticker {α : Type} (transport : Nat → Outcome α) (argsText : String) :
    RetrierResult α × Nat :=
  _coinbase_retrier transport "get_price_ticker" argsText

/-- Model of `Coinbase.get_all_currencies_price_ticker` (decorated
super-class call). -/
def get_all_currencies_price_ticker {α : Type} (transport : Nat → Outcome α)
    (argsText : String) : RetrierResult α × Nat :=
  _coinbase_retrier transport "get_all_currencies_price_ticker" argsText

/-- Model of `Coinbase.cancel_order` (decorated super-class call). -/
def cancel_order {α : Type} (transport : Nat → Outcome α) (argsText : String) :
    RetrierResult α × Nat :=
  _coinbase_retrier transport "cancel_order" argsText

/-- Model of `Coinbase.get_balance`: the decorated body forces `v3=True`
when the caller did not pass a `v3` keyword, then calls the super-class
fetch with that effective flag. -/
def get_balance {α : Type} (transport : Bool → Nat → Outcome α) (v3 : Option Bool)
    (argsText : String) : RetrierResult α × Nat :=
  _coinbase_retrier (transport (v3.getD true)) "get_balance" argsText

/-- Model of `Coinbase.get_open_orders` (decorated super-class call). -/
def get_open_orders {α : Type} (transport : Nat → Outcome α) (argsText : String) :
    RetrierResult α × Nat :=
  _coinbase_retrier transport "get_open_orders" argsText

/-- Model of `Coinbase.get_order` (decorated super-class call). -/
def get_order {α : Type} (transport : Nat → Outcome α) (argsText : String) :
    RetrierResult α × Nat :=
  _coinbase_retrier transport "get_order" argsText

/-- Model of `Coinbase._create_order_with_retry` (decorated super-class
call); `Coinbase.create_order` reaches the transport through it. -/
def _create_order_with_retry {α : Type} (transport : Nat → Outcome α) (argsText : String) :
    RetrierResult α × Nat :=
  _coinbase_retrier transport "_create_order_with_retry" argsText

/-- The subset of the external `trading_enums.TraderOrderType` enumeration
used by the adapter. -/
inductive TraderOrderType where
  | BUY_MARKET
  | SELL_MARKET
  | BUY_LIMIT
  | SELL_LIMIT
  | STOP_LOSS
  | TAKE_PROFIT
  deriving DecidableEq

/-- Python rendering `f"{order_type}"` of a `TraderOrderType` member. -/
def TraderOrderType.pyName : TraderOrderType → String
  | .BUY_MARKET => "TraderOrderType.BUY_MARKET"
  | .SELL_MARKET => "TraderOrderType.SELL_MARKET"
  | .BUY_LIMIT => "TraderOrderType.BUY_LIMIT"
  | .SELL_LIMIT => "TraderOrderType.SELL_LIMIT"
  | .STOP_LOSS => "TraderOrderType.STOP_LOSS"
  | .TAKE_PROFIT => "TraderOrderType.TAKE_PROFIT"

/-- Result of `Coinbase.create_order`: either the `NotSupported` precondition
failure (raised before any remote call) or a submission through
`_create_order_with_retry`. -/
inductive CreateOrderResult (α : Type) where
  | notSupported (msg : String)
  | submitted (r : RetrierResult α × Nat)
  deriving DecidableEq

/-- Model of `Coinbase.create_order`: a market buy without a truthy
`current_price` raises `NotSupported`; otherwise the super-class call
reaches the transport through the decorated `_create_order_with_retry`. -/
def create_order {α : Type} (order_type : TraderOrderType) (current_price : Option ℚ)
    (transport : Nat → Outcome α) (argsText : String) : CreateOrderResult α :=
  if order_type = .BUY_MARKET && !pyTruthyOptQ current_price then
    .notSupported ("current_price is required for " ++ order_type.pyName ++ " orders")
  else
    .submitted (_create_order_with_retry transport argsText)

/-- Number of transport invocations made by a `create_order` call. -/
def createOrderCalls {α : Type} : CreateOrderResult α → Nat
  | .notSupported _ => 0
  | .submitted (_, n) => n

/-! ## Market-open check -/

/-- The subset of the external `trading_enums.TradeOrderType` enumeration
used by the adapter. -/
inductive TradeOrderType where
  | market
  | limit
  | stop_loss
  | take_profit
  | unknown
  deriving DecidableEq

/-- The `.value` strings of the `TradeOrderType` members. -/
def TradeOrderType.value : TradeOrderType → String
  | .market => "market"
  | .limit => "limit"
  | .stop_loss => "stop_loss"
  | .take_profit => "take_profit"
  | .unknown => "unknown"

/-- The fields of the ccxt `info` market-status record read by
`is_market_open_for_order_type`; `none` models a missing key (`KeyError`). -/
structure MarketStatusInfo where
  limit_only : Option Bool
  cancel_only : Option Bool
  deriving DecidableEq

/-- Model of `Coinbase.is_market_open_for_order_type`. The external mapping
`order_util.get_trade_order_type(order_type)` is abstracted as the input
`trade_order_type` (its value in the source local of the same name). A
`KeyError` on a missing info key is caught, logged and turned into `true`,
and order types that are neither market nor limit fall through to `true`. -/
def is_market_open_for_order_type (market_status_info : MarketStatusInfo)
    (trade_order_type : TradeOrderType) : Bool :=
  match trade_order_type with
  | .market =>
    match market_status_info.limit_only with
    | some v => !v
    | none => true
  | .limit =>
    match market_status_info.cancel_only with
    | some v => !v
    | none => true
  | _ => true

/-! ## Order and trade normalization (`CoinbaseCCXTAdapter`) -/

/-- The `.value` strings of the external `trading_enums.OrderStatus` members
used by the adapter. -/
inductive OrderStatus where
  | PENDING_CREATION
  | PENDING_CANCEL
  | CLOSED
  deriving DecidableEq

/-- The `.value` strings of the `OrderStatus` members. -/
def OrderStatus.value : OrderStatus → String
  | .PENDING_CREATION => "pending_creation"
  | .PENDING_CANCEL => "pending_cancel"
  | .CLOSED => "closed"

/-- The order-record fields touched by `CoinbaseCCXTAdapter.fix_order`, after
the super-class `fix_order` has aligned field names. The source reads each
key with plain indexing (no `KeyError` handling), so the keys are present and
`none` models a key holding `None`. -/
structure Order where
  type : Option String
  stopPrice : Option ℚ
  price : Option ℚ
  status : String
  amount : Option ℚ
  filled : Option ℚ
  deriving DecidableEq

/-- Model of `CoinbaseCCXTAdapter.fix_order` (the Coinbase-specific repair
passes applied after the super-class call): order-type inference when `type`
is `None`, the `"PENDING"` and `"CANCEL_QUEUED"` status remappings, and the
amount backfill from `filled` (Python truthiness: `None` and `0` are falsy). -/
def fix_order (o : Order) : Order :=
  let o1 : Order :=
    match o.type with
    | some _ => o
    | none =>
      let order_type : String :=
        if o.stopPrice ≠ none then TradeOrderType.stop_loss.value
        else if o.price = none then TradeOrderType.market.value
        else TradeOrderType.limit.value
      { o with type := some order_type }
  let o2 := if o1.status = "PENDING" then { o1 with status := OrderStatus.PENDING_CREATION.value } else o1
  let o3 := if o2.status = "CANCEL_QUEUED" then { o2 with status := OrderStatus.PENDING_CANCEL.value } else o2
  if !pyTruthyOptQ o3.amount && pyTruthyOptQ o3.filled then { o3 with amount := o3.filled }
  else o3

/-- A value looked up in a trade dict: the key may be missing entirely
(Python `KeyError` on access), hold `None`, or hold a number. -/
inductive DictVal where
  | missing
  | null
  | num (q : ℚ)
  deriving DecidableEq

/-- Python truthiness of a present dict value (`None` and `0` are falsy). -/
def pyTruthyDictVal : DictVal → Bool
  | .missing => false
  | .null => false
  | .num x => decide (x ≠ 0)

/-- The trade-record fields touched by `CoinbaseCCXTAdapter.fix_trades`,
after the super-class `fix_trades` call. -/
structure Trade where
  status : String
  amount : DictVal
  cost : DictVal
  price : DictVal
  deriving DecidableEq

/-- Model of the per-trade body of `CoinbaseCCXTAdapter.fix_trades`: the
status is unconditionally forced to closed, then `amount` is backfilled with
`cost / price` when `amount` is `None` and both `cost` and `price` are truthy.
The lookups happen inside `try: ... except KeyError: pass`, and `and`
short-circuits, so a missing key at any point leaves the record unchanged. -/
def fix_trade (t : Trade) : Trade :=
  let t1 : Trade := { t with status := OrderStatus.CLOSED.value }
  match t1.amount, t1.cost with
  | .missing, _ => t1
  | .num _, _ => t1
  | .null, .missing => t1
  | .null, .null => t1
  | .null, .num cv =>
    if cv = 0 then t1
    else
      match t1.price with
      | .missing => t1
      | .null => t1
      | .num pv => if pv = 0 then t1 else { t1 with amount := .num (cv / pv) }

/-- Model of `CoinbaseCCXTAdapter.fix_trades` on the list of trades returned
by the super-class call. -/
def fix_trades (raw : List Trade) : List Trade := raw.map fix_trade

/-! ## Concrete sample errors used as witness inputs -/

/-- A rate-limit error whose text carries the instant-retry marker. -/
def e429 : PyError :=
  { kind := .rateLimitExceeded, className := "RateLimitExceeded",
    text := "coinbase 429 Too Many Requests" }

/-- A `ccxt.BaseError` whose text carries the instant-retry marker. -/
def cb429 : PyError :=
  { kind := .ccxtBaseError, className := "BaseError",
    text := "coinbase 429 Too Many Requests" }

/-- A retryable-kind error whose text does not carry the marker. -/
def fr500 : PyError :=
  { kind := .failedRequest, className := "FailedRequest",
    text := "coinbase 500 Internal Server Error" }

/-! ## Closed-form characterizations used by the proofs -/

/-- Closed form of the `type` field after `fix_order` (proved equal below). -/
def typeAfter (ty : Option String) (sp pr : Option ℚ) : Option String :=
  match ty with
  | some t => some t
  | none => some (if sp ≠ none then TradeOrderType.stop_loss.value
      else if pr = none then TradeOrderType.market.value
      else TradeOrderType.limit.value)

/-- Closed form of the `status` field after `fix_order` (proved equal below). -/
def statusAfter (st : String) : String :=
  if st = "PENDING" then OrderStatus.PENDING_CREATION.value
  else if st = "CANCEL_QUEUED" then OrderStatus.PENDING_CANCEL.value
  else st

/-- Closed form of the `amount` field after `fix_order` (proved equal below). -/
def amountAfter (am fl : Option ℚ) : Option ℚ :=
  if !pyTruthyOptQ am && pyTruthyOptQ fl then fl else am

theorem fix_order_eq (o : Order) :
    fix_order o = ⟨typeAfter o.type o.stopPrice o.price, o.stopPrice, o.price,
      statusAfter o.status, amountAfter o.amount o.filled, o.filled⟩ := by
  obtain ⟨ty, sp, pr, st, am, fl⟩ := o
  simp only [fix_order, typeAfter, statusAfter, amountAfter]
  cases ty <;> (dsimp only) <;> split_ifs <;> simp_all [OrderStatus.value, TradeOrderType.value]

theorem fix_trade_status (t : Trade) : (fix_trade t).status = OrderStatus.CLOSED.value := by
  obtain ⟨st, am, c, p⟩ := t
  simp only [fix_trade]
  cases am <;> cases c <;> (try cases p) <;> dsimp only <;> split_ifs <;> rfl

/-! ## Retry-policy helper lemmas -/

theorem retrier_step {α : Type} (f : Nat → Outcome α) (fName argsText : String)
    (fuel i calls : Nat) (le : Option PyError) (e : PyError)
    (hop : f i = .err e) (hk : isRetryableKind e.kind = true)
    (hm : strOccurs INSTANT_RETRY_ERROR_CODE e.text = true) :
    coinbaseRetrierLoop f fName argsText (fuel + 1) i le calls =
      coinbaseRetrierLoop f fName argsText fuel (i + 1) (some e) (calls + 1) := by
  simp [coinbaseRetrierLoop, hop, hk, hm]

theorem retrier_exhausts {α : Type} (f : Nat → Outcome α) (fName argsText : String)
    (e : Nat → PyError)
    (hop : ∀ i, i < 5 → f i = .err (e i))
    (hk : ∀ i, i < 5 → isRetryableKind (e i).kind = true)
    (hm : ∀ i, i < 5 → strOccurs INSTANT_RETRY_ERROR_CODE (e i).text = true) :
    _coinbase_retrier f fName argsText =
      (.raisedFrom (coinbaseWrappedError fName argsText (e 4)) (e 4), 5) := by
  have h0 := retrier_step f fName argsText 4 0 0 none (e 0) (hop 0 (by norm_num))
    (hk 0 (by norm_num)) (hm 0 (by norm_num))
  have h1 := retrier_step f fName argsText 3 1 1 (some (e 0)) (e 1) (hop 1 (by norm_num))
    (hk 1 (by norm_num)) (hm 1 (by norm_num))
  have h2 := retrier_step f fName argsText 2 2 2 (some (e 1)) (e 2) (hop 2 (by norm_num))
    (hk 2 (by norm_num)) (hm 2 (by norm_num))
  have h3 := retrier_step f fName argsText 1 3 3 (some (e 2)) (e 3) (hop 3 (by norm_num))
    (hk 3 (by norm_num)) (hm 3 (by norm_num))
  have h4 := retrier_step f fName argsText 0 4 4 (some (e 3)) (e 4) (hop 4 (by norm_num))
    (hk 4 (by norm_num)) (hm 4 (by norm_num))
  show coinbaseRetrierLoop f fName argsText 5 0 none 0 = _
  rw [show (5 : Nat) = 4 + 1 from rfl, h0]
  rw [show (4 : Nat) = 3 + 1 from rfl, h1]
  rw [show (3 : Nat) = 2 + 1 from rfl, h2]
  rw [show (2 : Nat) = 1 + 1 from rfl, h3]
  rw [show (1 : Nat) = 0 + 1 from rfl, h4]
  simp [coinbaseRetrierLoop]

theorem retrier_reraise {α : Type} (f : Nat → Outcome α) (fName argsText : String)
    (e : PyError) (hop : f 0 = .err e)
    (h : isRetryableKind e.kind = false ∨ strOccurs INSTANT_RETRY_ERROR_CODE e.text = false) :
    _coinbase_retrier f fName argsText = (.raised e, 1) := by
  show coinbaseRetrierLoop f fName argsText 5 0 none 0 = _
  rw [show (5 : Nat) = 4 + 1 from rfl]
  rcases h with h | h <;> simp [coinbaseRetrierLoop, hop, h]

theorem retrier_first_ok {α : Type} (f : Nat → Outcome α) (fName argsText : String)
    (a : α) (hop : f 0 = .ok a) :
    _coinbase_retrier f fName argsText = (.ok a, 1) := by
  show coinbaseRetrierLoop f fName argsText 5 0 none 0 = _
  rw [show (5 : Nat) = 4 + 1 from rfl]
  simp [coinbaseRetrierLoop, hop]

theorem coinbaseWrappedMessage_parts (fName argsText : String) (le : PyError) :
    embedsIn fName (coinbaseWrappedMessage fName argsText le)
  ∧ embedsIn argsText (coinbaseWrappedMessage fName argsText le)
  ∧ embedsIn (toString FAKE_RATE_LIMIT_ERROR_INSTANT_RETRY_COUNT)
      (coinbaseWrappedMessage fName argsText le)
  ∧ embedsIn INSTANT_RETRY_ERROR_CODE (coinbaseWrappedMessage fName argsText le)
  ∧ embedsIn le.text (coinbaseWrappedMessage fName argsText le)
  ∧ embedsIn le.className (coinbaseWrappedMessage fName argsText le) := by
  refine ⟨⟨"Failed Coinbase request after " ++ toString FAKE_RATE_LIMIT_ERROR_INSTANT_RETRY_COUNT ++
      " retries on ",
      "(" ++ argsText ++ ") due to " ++ INSTANT_RETRY_ERROR_CODE ++
      " error code. Last error: " ++ le.text ++ " (" ++ le.className ++ ")", ?_⟩,
    ⟨"Failed Coinbase request after " ++ toString FAKE_RATE_LIMIT_ERROR_INSTANT_RETRY_COUNT ++
      " retries on " ++ fName ++ "(",
      ") due to " ++ INSTANT_RETRY_ERROR_CODE ++
      " error code. Last error: " ++ le.text ++ " (" ++ le.className ++ ")", ?_⟩,
    ⟨"Failed Coinbase request after ",
      " retries on " ++ fName ++ "(" ++ argsText ++ ") due to " ++ INSTANT_RETRY_ERROR_CODE ++
      " error code. Last error: " ++ le.text ++ " (" ++ le.className ++ ")", ?_⟩,
    ⟨"Failed Coinbase request after " ++ toString FAKE_RATE_LIMIT_ERROR_INSTANT_RETRY_COUNT ++
      " retries on " ++ fName ++ "(" ++ argsText ++ ") due to ",
      " error code. Last error: " ++ le.text ++ " (" ++ le.className ++ ")", ?_⟩,
    ⟨"Failed Coinbase request after " ++ toString FAKE_RATE_LIMIT_ERROR_INSTANT_RETRY_COUNT ++
      " retries on " ++ fName ++ "(" ++ argsText ++ ") due to " ++ INSTANT_RETRY_ERROR_CODE ++
      " error code. Last error: ",
      " (" ++ le.className ++ ")", ?_⟩,
    ⟨"Failed Coinbase request after " ++ toString FAKE_RATE_LIMIT_ERROR_INSTANT_RETRY_COUNT ++
      " retries on " ++ fName ++ "(" ++ argsText ++ ") due to " ++ INSTANT_RETRY_ERROR_CODE ++
      " error code. Last error: " ++ le.text ++ " (",
      ")", ?_⟩⟩ <;>
  simp [coinbaseWrappedMessage, String.append_assoc]

/-! ## Claim theorems -/

/-- Claim C1: if every invocation of the wrapped operation raises one of the
three retryable error kinds whose text contains the instant-retry marker
"429", the retry wrapper invokes the operation exactly
`FAKE_RATE_LIMIT_ERROR_INSTANT_RETRY_COUNT` (= 5) times and then raises a new
`FailedRequest` error whose message embeds the operation name, its arguments,
the attempt count, the marker, and the last underlying error's message and
kind, chaining the last underlying error as its cause. -/
theorem coinbase_retrier_exhausts_all_attempts {α : Type} (f : Nat → Outcome α)
    (fName argsText : String) (e : Nat → PyError)
    (hop : ∀ i, i < FAKE_RATE_LIMIT_ERROR_INSTANT_RETRY_COUNT → f i = .err (e i))
    (hkind : ∀ i, i < FAKE_RATE_LIMIT_ERROR_INSTANT_RETRY_COUNT →
      isRetryableKind (e i).kind = true)
    (hmark : ∀ i, i < FAKE_RATE_LIMIT_ERROR_INSTANT_RETRY_COUNT →
      strOccurs INSTANT_RETRY_ERROR_CODE (e i).text = true) :
    _coinbase_retrier f fName argsText =
      (.raisedFrom (coinbaseWrappedError fName argsText (e 4)) (e 4),
        FAKE_RATE_LIMIT_ERROR_INSTANT_RETRY_COUNT)
  ∧ (coinbaseWrappedError fName argsText (e 4)).kind = .failedRequest
  ∧ embedsIn fName (coinbaseWrappedError fName argsText (e 4)).text
  ∧ embedsIn argsText (coinbaseWrappedError fName argsText (e 4)).text
  ∧ embedsIn (toString FAKE_RATE_LIMIT_ERROR_INSTANT_RETRY_COUNT)
      (coinbaseWrappedError fName argsText (e 4)).text
  ∧ embedsIn INSTANT_RETRY_ERROR_CODE (coinbaseWrappedError fName argsText (e 4)).text
  ∧ embedsIn (e 4).text (coinbaseWrappedError fName argsText (e 4)).text
  ∧ embedsIn (e 4).className (coinbaseWrappedError fName argsText (e 4)).text := by
  obtain ⟨p1, p2, p3, p4, p5, p6⟩ := coinbaseWrappedMessage_parts fName argsText (e 4)
  exact ⟨retrier_exhausts f fName argsText e hop hkind hmark, rfl, p1, p2, p3, p4, p5, p6⟩

theorem coinbase_retrier_exhausts_all_attempts_witness :
    (isRetryableKind e429.kind = true ∧ strOccurs INSTANT_RETRY_ERROR_CODE e429.text = true)
  ∧ _coinbase_retrier (α := Nat) (fun _ => Outcome.err e429) "get_order" "args=(id) kwargs=()" =
      (.raisedFrom (coinbaseWrappedError "get_order" "args=(id) kwargs=()" e429) e429,
        FAKE_RATE_LIMIT_ERROR_INSTANT_RETRY_COUNT) :=
  ⟨⟨by decide, by decide⟩,
    (coinbase_retrier_exhausts_all_attempts (fun _ => Outcome.err e429) "get_order"
      "args=(id) kwargs=()" (fun _ => e429) (fun _ _ => rfl)
      (fun _ _ => show isRetryableKind e429.kind = true from by decide)
      (fun _ _ => show strOccurs INSTANT_RETRY_ERROR_CODE e429.text = true from by decide)).1⟩

/-- Claim C2: if the first invocation of the wrapped operation raises an
error whose text lacks the instant-retry marker, or an error of a kind other
than the three retryable kinds, the wrapper propagates that original error
unchanged after exactly one invocation (zero retries). -/
theorem coinbase_retrier_reraises_first_attempt {α : Type} (f : Nat → Outcome α)
    (fName argsText : String) (e : PyError) (hop : f 0 = .err e)
    (h : strOccurs INSTANT_RETRY_ERROR_CODE e.text = false ∨ isRetryableKind e.kind = false) :
    _coinbase_retrier f fName argsText = (.raised e, 1) :=
  h.elim (fun hm => retrier_reraise f fName argsText e hop (Or.inr hm))
    (fun hk => retrier_reraise f fName argsText e hop (Or.inl hk))

theorem coinbase_retrier_reraises_first_attempt_witness :
    strOccurs INSTANT_RETRY_ERROR_CODE fr500.text = false
  ∧ _coinbase_retrier (α := Nat) (fun _ => Outcome.err fr500) "get_balance" "args=() kwargs=()" =
      (.raised fr500, 1) :=
  ⟨by decide,
    coinbase_retrier_reraises_first_attempt (fun _ => Outcome.err fr500) "get_balance"
      "args=() kwargs=()" fr500 rfl (Or.inl (by decide))⟩

/-- Claim C3: `fix_order` infers a missing order type by a strict priority
chain — a set `stopPrice` gives "stop_loss" regardless of `price`, otherwise
a missing `price` gives "market", otherwise "limit" — and keeps an
already-set type unchanged. -/
theorem fix_order_infers_missing_type (o : Order) :
    (fix_order o).type =
      match o.type with
      | some t => some t
      | none => some (if o.stopPrice ≠ none then TradeOrderType.stop_loss.value
          else if o.price = none then TradeOrderType.market.value
          else TradeOrderType.limit.value) := by
  rw [fix_order_eq]
  cases o.type <;> rfl

/-- Claim C5: `fix_order` maps exchange status "PENDING" to
"pending_creation" and "CANCEL_QUEUED" to "pending_cancel" and leaves every
other order status unchanged, while `fix_trades` forces every trade's status
to "closed". -/
theorem fix_order_fix_trades_status_remapping (o : Order) (raw : List Trade) :
    ((fix_order o).status =
      if o.status = "PENDING" then OrderStatus.PENDING_CREATION.value
      else if o.status = "CANCEL_QUEUED" then OrderStatus.PENDING_CANCEL.value
      else o.status)
  ∧ (fix_trades raw).map Trade.status = raw.map (fun _ => OrderStatus.CLOSED.value) := by
  constructor
  · rw [fix_order_eq]
    rfl
  · induction raw with
    | nil => rfl
    | cons h t ih =>
      simp only [fix_trades, List.map_cons] at ih ⊢
      rw [fix_trade_status, ih]

/-- Claim C6: in `fix_trades`, a trade whose `amount` is `None` while `cost`
and `price` are present non-zero numbers gets `amount = cost / price`; in
every other case — including a zero `price` or a missing key, whose lookup
failure is swallowed — `amount` is left unchanged, so the division is never
performed with a zero divisor. -/
theorem fix_trade_amount_backfill (t : Trade) :
    (fix_trade t).amount =
      match t.amount, t.cost, t.price with
      | .null, .num cv, .num pv => if cv ≠ 0 ∧ pv ≠ 0 then .num (cv / pv) else .null
      | a, _, _ => a := by
  obtain ⟨st, am, c, p⟩ := t
  cases am <;> cases c <;> cases p <;> simp [fix_trade] <;> (try split_ifs) <;>
    (try simp_all)

/-- Claim C7: the order repair passes of `fix_order` (type inference, status
remapping, amount backfill) are idempotent. -/
theorem fix_order_idempotent (o : Order) : fix_order (fix_order o) = fix_order o := by
  rw [fix_order_eq o, fix_order_eq]
  dsimp only
  simp only [Order.mk.injEq, and_true, true_and]
  refine ⟨?_, ?_, ?_⟩
  · cases o.type <;> simp [typeAfter]
  · unfold statusAfter
    split_ifs <;> simp_all [OrderStatus.value]
  · unfold amountAfter
    split_ifs <;> simp_all [pyTruthyOptQ]

/-- Claim C4 counterexample: with `since` supplied in the kwargs the request
parameters are returned unchanged — in particular the computed limit is NOT
attached — and a requested limit of 0 (present and ≤ 300) is replaced by the
maximum page size rather than kept. -/
theorem get_ohlcv_params_attaches_limit_counterexample :
    (_get_ohlcv_params 1 (some 50) ⟨some 1000, none⟩ 7000000 = ⟨some 1000, none⟩
      ∧ (_get_ohlcv_params 1 (some 50) ⟨some 1000, none⟩ 7000000).limit = none)
  ∧ ((_get_ohlcv_params 1 (some 0) ⟨none, none⟩ 7000000).limit = some MAX_PAGINATION_LIMIT
      ∧ (_get_ohlcv_params 1 (some 0) ⟨none, none⟩ 7000000).limit ≠ some 0) := by
  refine ⟨⟨rfl, rfl⟩, rfl, by decide⟩

/-- Claim C4 as amended: the effective limit is the caller's requested limit
when present, non-zero and at most the maximum page size (300), the maximum
when the requested limit is larger, and the maximum when the limit is absent
or zero; when the caller did not supply `since`, the computed window
`now - timeFrameMs * limit` and the limit are attached; when the caller
supplied `since`, the kwargs are returned unchanged and the computed limit is
not attached. -/
theorem get_ohlcv_params_windowing (time_frame_minutes : Nat) (input_limit : Option Nat)
    (kwargs : OhlcvKwargs) (now : Int) :
    _get_ohlcv_params time_frame_minutes input_limit kwargs now =
      (let limit : Nat :=
        match input_limit with
        | none => MAX_PAGINATION_LIMIT
        | some l =>
          if l = 0 then MAX_PAGINATION_LIMIT
          else if MAX_PAGINATION_LIMIT < l then MAX_PAGINATION_LIMIT
          else l
      match kwargs.since with
      | none =>
        { since := some (now - (time_frame_minutes * MSECONDS_TO_MINUTE * limit : Nat)),
          limit := some limit }
      | some _ => kwargs) := by
  obtain ⟨s, lim⟩ := kwargs
  cases s <;> cases input_limit <;>
    simp only [_get_ohlcv_params, pyTruthyOptNat, Option.getD_some, Option.getD_none] <;>
    (try rfl)
  rename_i l
  by_cases h0 : l = 0
  · subst h0
    rfl
  · by_cases h1 : MAX_PAGINATION_LIMIT < l
    · simp [h0, h1, Nat.min_eq_left (Nat.le_of_lt h1)]
    · simp [h0, h1]

/-- Claim C8 counterexample: a market-buy order with a supplied but zero
`current_price` (falsy in Python) raises the `NotSupported` precondition
failure and makes no transport call, although the claim places every
combination other than "market buy with no current price" on the
transport-invoking side. -/
theorem create_order_zero_current_price_counterexample :
    create_order TraderOrderType.BUY_MARKET (some 0) (fun _ => Outcome.ok (7 : Nat))
      "args=(sym) kwargs=()" =
      .notSupported ("current_price is required for " ++
        TraderOrderType.pyName .BUY_MARKET ++ " orders")
  ∧ createOrderCalls (create_order TraderOrderType.BUY_MARKET (some 0)
      (fun _ => Outcome.ok (7 : Nat)) "args=(sym) kwargs=()") = 0 := by
  constructor
  · show create_order _ _ _ _ = _
    have hz : pyTruthyOptQ (some (0 : ℚ)) = false := by decide
    simp [create_order, hz]
  · have hz : pyTruthyOptQ (some (0 : ℚ)) = false := by decide
    simp [create_order, hz, createOrderCalls]

/-- Claim C8 as amended: `create_order` raises `NotSupported` without any
transport call exactly when the order type is market buy and `current_price`
is falsy (`None` or zero); in every other combination the precondition
passes and the transport is invoked (once, when its first attempt
succeeds). -/
theorem create_order_market_buy_precondition {α : Type} (order_type : TraderOrderType)
    (current_price : Option ℚ) (transport : Nat → Outcome α) (argsText : String)
    (a : α) (hok : transport 0 = .ok a) :
    (order_type = .BUY_MARKET ∧ pyTruthyOptQ current_price = false →
      create_order order_type current_price transport argsText =
        .notSupported ("current_price is required for " ++ order_type.pyName ++ " orders")
      ∧ createOrderCalls (create_order order_type current_price transport argsText) = 0)
  ∧ (¬(order_type = .BUY_MARKET ∧ pyTruthyOptQ current_price = false) →
      create_order order_type current_price transport argsText =
        .submitted (.ok a, 1)
      ∧ createOrderCalls (create_order order_type current_price transport argsText) = 1) := by
  constructor
  · rintro ⟨rfl, h2⟩
    constructor
    · simp [create_order, h2]
    · simp [create_order, h2, createOrderCalls]
  · intro h
    have hcond : create_order order_type current_price transport argsText =
        .submitted (.ok a, 1) := by
      by_cases hA : order_type = .BUY_MARKET
      · have hp : pyTruthyOptQ current_price = true := by
          cases hpv : pyTruthyOptQ current_price
          · exact absurd ⟨hA, hpv⟩ h
          · rfl
        simp [create_order, hA, hp, _create_order_with_retry,
          retrier_first_ok transport "_create_order_with_retry" argsText a hok]
      · simp [create_order, hA, _create_order_with_retry,
          retrier_first_ok transport "_create_order_with_retry" argsText a hok]
    exact ⟨hcond, by simp [hcond, createOrderCalls]⟩

theorem create_order_market_buy_precondition_witness :
    ((TraderOrderType.BUY_MARKET = TraderOrderType.BUY_MARKET
        ∧ pyTruthyOptQ (none : Option ℚ) = false)
      ∧ create_order TraderOrderType.BUY_MARKET none (fun _ => Outcome.ok (7 : Nat))
          "args=(sym) kwargs=()" =
        .notSupported ("current_price is required for " ++
          TraderOrderType.pyName .BUY_MARKET ++ " orders"))
  ∧ create_order TraderOrderType.SELL_LIMIT (some 5) (fun _ => Outcome.ok (7 : Nat))
      "args=(sym) kwargs=()" = .submitted (.ok 7, 1) :=
  ⟨⟨⟨rfl, rfl⟩,
    ((create_order_market_buy_precondition TraderOrderType.BUY_MARKET none
      (fun _ => Outcome.ok (7 : Nat)) "args=(sym) kwargs=()" 7 rfl).1 ⟨rfl, rfl⟩).1⟩,
    ((create_order_market_buy_precondition TraderOrderType.SELL_LIMIT (some 5)
      (fun _ => Outcome.ok (7 : Nat)) "args=(sym) kwargs=()" 7 rfl).2
      (fun hc => absurd hc.1 (by decide))).1⟩

/-- Claim C9 counterexample: `get_account_id` does not wrap its transport
call in the retry policy — when the transport raises a `ccxt.BaseError`
carrying the instant-retry marker "429" (a retryable error under the
wrapper's classification), the transport is invoked exactly once, nothing is
retried, and the default account id is returned. -/
theorem get_account_id_not_retried_counterexample :
    (isRetryableKind cb429.kind = true
      ∧ strOccurs INSTANT_RETRY_ERROR_CODE cb429.text = true)
  ∧ get_account_id (fun _ => Outcome.err cb429) = (Outcome.ok DEFAULT_ACCOUNT_ID, 1)
  ∧ (get_account_id (fun _ => Outcome.err cb429)).2 ≠
      FAKE_RATE_LIMIT_ERROR_INSTANT_RETRY_COUNT :=
  ⟨⟨by decide, by decide⟩, by decide, by decide⟩

/-- Claim C9 as amended: nine of the ten engine-facing operations
(`get_symbol_prices`, `get_recent_trades`, `get_price_ticker`,
`get_all_currencies_price_ticker`, `cancel_order`, `get_balance`,
`get_open_orders`, `get_order`, and `create_order` through its decorated
`_create_order_with_retry`) wrap their transport call in the retry policy,
so a persistent retryable marker-carrying error makes them invoke the
transport all 5 times before raising the wrapped failure; `get_account_id`
is not wrapped: on such an error it invokes the transport once and falls
back to the default account id without retrying. -/
theorem facade_ops_retry_wrapping {α : Type}
    (transport : Nat → Outcome α)
    (ohlcvTransport : OhlcvKwargs → Nat → Outcome α)
    (balanceTransport : Bool → Nat → Outcome α)
    (accountTransport : Nat → Outcome String)
    (argsText : String) (time_frame_minutes : Nat) (input_limit : Option Nat)
    (kwargs : OhlcvKwargs) (now : Nat → Int) (v3 : Option Bool)
    (e : Nat → PyError) (ce : PyError)
    (hop : ∀ i, i < 5 → transport i = .err (e i))
    (hohlcv : ∀ p i, i < 5 → ohlcvTransport p i = .err (e i))
    (hbal : ∀ b i, i < 5 → balanceTransport b i = .err (e i))
    (hkind : ∀ i, i < 5 → isRetryableKind (e i).kind = true)
    (hmark : ∀ i, i < 5 → strOccurs INSTANT_RETRY_ERROR_CODE (e i).text = true)
    (hacct : accountTransport 0 = .err ce)
    (hacctKind : ce.kind = .ccxtBaseError)
    (_hacctMark : strOccurs INSTANT_RETRY_ERROR_CODE ce.text = true) :
    get_symbol_prices ohlcvTransport time_frame_minutes input_limit kwargs now argsText =
      (.raisedFrom (coinbaseWrappedError "get_symbol_prices" argsText (e 4)) (e 4), 5)
  ∧ get_recent_trades transport argsText =
      (.raisedFrom (coinbaseWrappedError "get_recent_trades" argsText (e 4)) (e 4), 5)
  ∧ get_price_ticker transport argsText =
      (.raisedFrom (coinbaseWrappedError "get_price_ticker" argsText (e 4)) (e 4), 5)
  ∧ get_all_currencies_price_ticker transport argsText =
      (.raisedFrom (coinbaseWrappedError "get_all_currencies_price_ticker" argsText (e 4))
        (e 4), 5)
  ∧ cancel_order transport argsText =
      (.raisedFrom (coinbaseWrappedError "cancel_order" argsText (e 4)) (e 4), 5)
  ∧ get_balance balanceTransport v3 argsText =
      (.raisedFrom (coinbaseWrappedError "get_balance" argsText (e 4)) (e 4), 5)
  ∧ get_open_orders transport argsText =
      (.raisedFrom (coinbaseWrappedError "get_open_orders" argsText (e 4)) (e 4), 5)
  ∧ get_order transport argsText =
      (.raisedFrom (coinbaseWrappedError "get_order" argsText (e 4)) (e 4), 5)
  ∧ _create_order_with_retry transport argsText =
      (.raisedFrom (coinbaseWrappedError "_create_order_with_retry" argsText (e 4)) (e 4), 5)
  ∧ get_account_id accountTransport = (.ok DEFAULT_ACCOUNT_ID, 1) := by
  refine ⟨?_, ?_, ?_, ?_, ?_, ?_, ?_, ?_, ?_, ?_⟩
  · exact retrier_exhausts _ "get_symbol_prices" argsText e
      (fun i hi => hohlcv _ i hi) hkind hmark
  · exact retrier_exhausts _ "get_recent_trades" argsText e hop hkind hmark
  · exact retrier_exhausts _ "get_price_ticker" argsText e hop hkind hmark
  · exact retrier_exhausts _ "get_all_currencies_price_ticker" argsText e hop hkind hmark
  · exact retrier_exhausts _ "cancel_order" argsText e hop hkind hmark
  · exact retrier_exhausts _ "get_balance" argsText e
      (fun i hi => hbal _ i hi) hkind hmark
  · exact retrier_exhausts _ "get_open_orders" argsText e hop hkind hmark
  · exact retrier_exhausts _ "get_order" argsText e hop hkind hmark
  · exact retrier_exhausts _ "_create_order_with_retry" argsText e hop hkind hmark
  · simp [get_account_id, hacct, hacctKind]

theorem facade_ops_retry_wrapping_witness :
    (isRetryableKind cb429.kind = true
      ∧ strOccurs INSTANT_RETRY_ERROR_CODE cb429.text = true)
  ∧ cancel_order (α := Nat) (fun _ => Outcome.err cb429) "args=() kwargs=()" =
      (.raisedFrom (coinbaseWrappedError "cancel_order" "args=() kwargs=()" cb429) cb429, 5)
  ∧ get_account_id (fun _ => Outcome.err cb429) = (.ok DEFAULT_ACCOUNT_ID, 1) := by
  have h := facade_ops_retry_wrapping (α := Nat) (fun _ => Outcome.err cb429)
    (fun _ _ => Outcome.err cb429) (fun _ _ => Outcome.err cb429)
    (fun _ => Outcome.err cb429) "args=() kwargs=()" 1 none ⟨none, none⟩ (fun _ => 0) none
    (fun _ => cb429) cb429
    (fun _ _ => rfl) (fun _ _ _ => rfl) (fun _ _ _ => rfl)
    (fun _ _ => show isRetryableKind cb429.kind = true from by decide)
    (fun _ _ => show strOccurs INSTANT_RETRY_ERROR_CODE cb429.text = true from by decide)
    rfl rfl (by decide)
  exact ⟨⟨by decide, by decide⟩, h.2.2.2.2.1, h.2.2.2.2.2.2.2.2.2⟩

/-- Claim C10: `is_market_open_for_order_type` returns true when the
market-status info record lacks the key the check needs (`limit_only` for
market orders, `cancel_only` for limit orders) and when the order type maps
to neither market nor limit; the lookup failure is only logged, never
propagated. -/
theorem is_market_open_fallback (info : MarketStatusInfo) (tot : TradeOrderType) :
    (tot = .market → info.limit_only = none →
      is_market_open_for_order_type info tot = true)
  ∧ (tot = .limit → info.cancel_only = none →
      is_market_open_for_order_type info tot = true)
  ∧ (tot ≠ .market → tot ≠ .limit →
      is_market_open_for_order_type info tot = true) := by
  refine ⟨?_, ?_, ?_⟩
  · rintro rfl h
    simp [is_market_open_for_order_type, h]
  · rintro rfl h
    simp [is_market_open_for_order_type, h]
  · intro h1 h2
    cases tot <;> simp_all [is_market_open_for_order_type]

theorem is_market_open_fallback_witness :
    ((⟨none, none⟩ : MarketStatusInfo).limit_only = none
      ∧ is_market_open_for_order_type ⟨none, none⟩ .market = true)
  ∧ is_market_open_for_order_type ⟨none, some true⟩ .stop_loss = true :=
  ⟨⟨rfl, (is_market_open_fallback ⟨none, none⟩ .market).1 rfl rfl⟩,
    (is_market_open_fallback ⟨none, some true⟩ .stop_loss).2.2
      (by decide) (by decide)⟩
